import Mathlib

/-!
Verification of the SP500 portfolio-analysis MCP server
(`SP500MCPServer/sp500_mcp_server_v2.py`).

The server holds an in-memory list of company records and exposes four
read-only operations: `query_sp500_portfolio` (filter / sort / limit),
`get_company_details` (single lookup with derived metrics),
`get_sector_analysis` (per-sector aggregation) and `get_exposure_summary`
(whole-portfolio aggregation).  Python floats are modelled by `ℚ`,
Python strings by `String`; Python's stable `sorted` is modelled by a
stable insertion sort.  Case folding is modelled on ASCII (all strings
in the dataset and in the code's comparisons are ASCII).
-/

/-- ASCII model of Python `str.lower()`. -/
def lowerStr (s : String) : String := String.mk (s.data.map Char.toLower)

/-- ASCII model of Python `str.upper()`. -/
def upperStr (s : String) : String := String.mk (s.data.map Char.toUpper)

/-- Helper for `containsSub`: does `nd` occur as a contiguous run in the list? -/
def subAux (nd : List Char) : List Char → Bool
  | [] => nd.isEmpty
  | c :: t => List.isPrefixOf nd (c :: t) || subAux nd t

/-- Model of Python's substring test `needle in hay`. -/
def containsSub (hay needle : String) : Bool := subAux needle.data hay.data

/-- One row of the loaded dataset, after numeric/boolean coercion
(`load_portfolio_data`).  Python float fields are modelled by `ℚ`. -/
structure Company where
  ticker : String
  company_name : String
  sector : String
  industry : String
  exposure_level : String
  imports_into_us : Bool
  investment_usd : ℚ
  revenue_usd : ℚ
  cogs_usd : ℚ
  affected_cogs_pct : ℚ
  fiscal_year : ℚ
  confidence : ℚ
deriving DecidableEq

/-- The parameter record of `query_sp500_portfolio` (field order follows the
Python signature). -/
structure Query where
  sector : String
  industry : String
  exposure_level : String
  imports_filter : String
  min_revenue : ℚ
  max_revenue : ℚ
  min_affected_cogs_pct : ℚ
  company_name : String
  ticker : String
  limit : Int
  sort_by : String
  sort_desc : Bool
deriving DecidableEq

/-- The sequential filter pipeline of `query_sp500_portfolio` (lines 125-154):
each criterion is applied only when supplied (non-empty string / positive
number), exactly in source order. -/
def applyFilters (q : Query) (data : List Company) : List Company :=
  let r := data
  let r := if q.sector = "" then r else
    r.filter (fun c => lowerStr c.sector == lowerStr q.sector)
  let r := if q.industry = "" then r else
    r.filter (fun c => lowerStr c.industry == lowerStr q.industry)
  let r := if q.exposure_level = "" then r else
    r.filter (fun c => lowerStr c.exposure_level == lowerStr q.exposure_level)
  let r := if q.imports_filter = "" then r else
    if lowerStr q.imports_filter = "yes" then r.filter (fun c => c.imports_into_us)
    else if lowerStr q.imports_filter = "no" then r.filter (fun c => !c.imports_into_us)
    else r
  let r := if q.min_revenue > 0 then r.filter (fun c => q.min_revenue ≤ c.revenue_usd) else r
  let r := if q.max_revenue > 0 then r.filter (fun c => c.revenue_usd ≤ q.max_revenue) else r
  let r := if q.min_affected_cogs_pct > 0 then
    r.filter (fun c => q.min_affected_cogs_pct ≤ c.affected_cogs_pct) else r
  let r := if q.company_name = "" then r else
    r.filter (fun c => containsSub (lowerStr c.company_name) (lowerStr q.company_name))
  let r := if q.ticker = "" then r else
    r.filter (fun c => upperStr c.ticker == upperStr q.ticker)
  r

/-- Sort key selection `float(x.get(sort_by, 0))` for the allow-listed fields. -/
def sortKey (field : String) (c : Company) : ℚ :=
  if field = "revenue_usd" then c.revenue_usd
  else if field = "affected_cogs_pct" then c.affected_cogs_pct
  else if field = "confidence" then c.confidence
  else if field = "investment_usd" then c.investment_usd
  else 0

/-- Stable insertion into a sorted list: `a` goes before the first element it
may precede (`le a b = true`); on ties `a` (the originally earlier element)
stays first. -/
def insertLe {α : Type} (le : α → α → Bool) (a : α) : List α → List α
  | [] => [a]
  | b :: l => if le a b then a :: b :: l else b :: insertLe le a l

/-- Stable sort (models Python's stable `sorted`, including `reverse=True`,
via the comparator handed to it). -/
def sortByLe {α : Type} (le : α → α → Bool) : List α → List α
  | [] => []
  | a :: l => insertLe le a (sortByLe le l)

/-- Model of `sorted(results, key=..., reverse=sort_desc)`. -/
def pySort (field : String) (desc : Bool) (l : List Company) : List Company :=
  sortByLe (fun a b =>
    if desc then decide (sortKey field b ≤ sortKey field a)
    else decide (sortKey field a ≤ sortKey field b)) l

/-- Model of Python slicing `l[:limit]` for an arbitrary integer `limit`:
nonnegative `limit` keeps the first `limit` elements; negative `limit`
drops the last `|limit|` elements. -/
def pyTake {α : Type} (limit : Int) (l : List α) : List α :=
  if 0 ≤ limit then l.take limit.toNat
  else l.take (l.length - limit.natAbs)

/-- The payload of the search response envelope (fields that depend on the
query; request id / timing are envelope noise and not modelled). -/
structure SearchResult where
  total_matches : Nat
  returned_count : Nat
  companies : List Company
deriving DecidableEq

/-- Allow-list of sortable fields (line 159). -/
def sortFields : List String :=
  ["revenue_usd", "affected_cogs_pct", "confidence", "investment_usd"]

/-- Core of the `query_sp500_portfolio` tool (lines 121-174): filter, count
matches before truncation, optionally sort, then slice to `limit`. -/
def query_sp500_portfolio (q : Query) (data : List Company) : SearchResult :=
  let results := applyFilters q data
  let total_matches := results.length
  let results :=
    if q.sort_by ≠ "" ∧ q.sort_by ∈ sortFields then pySort q.sort_by q.sort_desc results
    else results
  let results := pyTake q.limit results
  ⟨total_matches, results.length, results⟩

/-- Ticker criterion of `get_company_details` (line 231). -/
def tickerMatch (t : String) (c : Company) : Bool := upperStr c.ticker == upperStr t

/-- Name criterion of `get_company_details` (line 238): case-insensitive
substring. -/
def nameMatch (n : String) (c : Company) : Bool :=
  containsSub (lowerStr c.company_name) (lowerStr n)

/-- Outcome of `get_company_details`; `success` carries the company and the
four calculated metrics in source order.  The not-found message is modelled
without the quote characters of the Python f-string. -/
inductive DetailsResult where
  | validationError (msg : String)
  | notFound (msg : String)
  | success (company : Company) (affected_cogs_usd potential_tariff_impact_usd
      revenue_to_cogs_ratio exposure_risk_score : ℚ)
deriving DecidableEq

/-- The lookup phase of `get_company_details` (lines 228-240): first match by
ticker (when supplied), then first match by name substring (when supplied). -/
def lookupCompany (ticker company_name : String) (data : List Company) :
    Option Company :=
  let byTicker : Option Company :=
    if ticker ≠ "" then data.find? (tickerMatch ticker) else none
  match byTicker with
  | some c => some c
  | none =>
    if company_name ≠ "" then data.find? (nameMatch company_name) else none

/-- Core of the `get_company_details` tool (lines 216-270): validation,
ticker-first lookup, name fallback, derived metrics. -/
def get_company_details (ticker company_name : String) (data : List Company) :
    DetailsResult :=
  if ticker = "" ∧ company_name = "" then
    .validationError "Must provide either ticker or company_name"
  else
    match lookupCompany ticker company_name data with
    | none =>
      .notFound ("No company found matching ticker=" ++ ticker ++
        " or name=" ++ company_name)
    | some c =>
      let affected_cogs_usd := c.cogs_usd * c.affected_cogs_pct
      let potential_impact_usd := affected_cogs_usd * 0.25
      .success c affected_cogs_usd potential_impact_usd
        (if c.cogs_usd > 0 then c.revenue_usd / c.cogs_usd else 0)
        (c.affected_cogs_pct * (if c.imports_into_us then 1 else 0))

/-- Running per-sector accumulator of `get_sector_analysis` (lines 326-349). -/
structure SectorAcc where
  companies : List Company
  total_investment : ℚ
  total_revenue : ℚ
  total_cogs : ℚ
  total_affected_cogs : ℚ
  importers_count : Nat
deriving DecidableEq

/-- Fresh accumulator for a sector seen for the first time. -/
def emptyAcc : SectorAcc := ⟨[], 0, 0, 0, 0, 0⟩

/-- One loop iteration of the grouping phase: add a company's numbers to its
sector's accumulator. -/
def accAdd (a : SectorAcc) (c : Company) : SectorAcc :=
  ⟨a.companies ++ [c],
   a.total_investment + c.investment_usd,
   a.total_revenue + c.revenue_usd,
   a.total_cogs + c.cogs_usd,
   a.total_affected_cogs + c.cogs_usd * c.affected_cogs_pct,
   a.importers_count + (if c.imports_into_us then 1 else 0)⟩

/-- Insertion-ordered dict update (Python dicts preserve insertion order):
update the existing entry in place, or append a new one. -/
def upsert (key : String) (c : Company) : List (String × SectorAcc) → List (String × SectorAcc)
  | [] => [(key, accAdd emptyAcc c)]
  | (k, a) :: t => if k = key then (k, accAdd a c) :: t else (k, a) :: upsert key c t

/-- The grouping loop `for company in data` of `get_sector_analysis`. -/
def groupBySector (data : List Company) : List (String × SectorAcc) :=
  data.foldl (fun acc c => upsert c.sector c acc) []

/-- One element of the `sectors` payload of `get_sector_analysis`
(lines 357-371). -/
structure SectorSummary where
  sector : String
  company_count : Nat
  total_investment_usd : ℚ
  total_revenue_usd : ℚ
  total_cogs_usd : ℚ
  total_affected_cogs_usd : ℚ
  average_exposure_pct : ℚ
  importers_count : Nat
  top_exposed_companies : List Company
deriving DecidableEq

/-- Build one sector summary from its accumulator, guarding the
zero-denominator case of `average_exposure_pct` (line 355). -/
def mkSummary (kv : String × SectorAcc) : SectorSummary :=
  ⟨kv.1, kv.2.companies.length, kv.2.total_investment, kv.2.total_revenue,
   kv.2.total_cogs, kv.2.total_affected_cogs,
   if kv.2.total_cogs > 0 then kv.2.total_affected_cogs / kv.2.total_cogs else 0,
   kv.2.importers_count,
   (sortByLe (fun x y => decide (y.affected_cogs_pct ≤ x.affected_cogs_pct))
     kv.2.companies).take 5⟩

/-- Summaries in final order: descending by total investment (line 374). -/
def buildSectorSummaries (data : List Company) : List SectorSummary :=
  sortByLe (fun x y => decide (y.total_investment_usd ≤ x.total_investment_usd))
    ((groupBySector data).map mkSummary)

/-- Outcome of `get_sector_analysis`. -/
inductive SectorAnalysisResult where
  | notFound (msg : String)
  | success (sector_count : Nat) (sectors : List SectorSummary)
deriving DecidableEq

/-- Core of the `get_sector_analysis` tool (lines 311-384): optional sector
filter, not-found on an empty filtered set, otherwise grouped summaries. -/
def get_sector_analysis (sector : String) (data : List Company) :
    SectorAnalysisResult :=
  let data2 := if sector = "" then data
    else data.filter (fun c => lowerStr c.sector == lowerStr sector)
  if sector ≠ "" ∧ data2.isEmpty then
    .notFound ("No companies found in sector " ++ sector)
  else
    .success (buildSectorSummaries data2).length (buildSectorSummaries data2)

/-- `portfolio_overview` block of `get_exposure_summary` (lines 478-486). -/
structure PortfolioOverview where
  total_companies : Nat
  total_investment_usd : ℚ
  total_revenue_usd : ℚ
  total_cogs_usd : ℚ
  total_affected_cogs_usd : ℚ
  overall_exposure_pct : ℚ
  companies_importing : Nat
deriving DecidableEq

/-- `exposure_level_breakdown` block (lines 442-447); `none_count` models the
Python key `none`. -/
structure ExposureBreakdown where
  high : Nat
  medium : Nat
  low : Nat
  none_count : Nat
deriving DecidableEq

/-- Per-sector running totals of the ranking phase (lines 450-459). -/
def upsertCogs (key : String) (cogs affected : ℚ) :
    List (String × ℚ × ℚ) → List (String × ℚ × ℚ)
  | [] => [(key, cogs, affected)]
  | (k, t, a) :: rest =>
    if k = key then (k, t + cogs, a + affected) :: rest
    else (k, t, a) :: upsertCogs key cogs affected rest

/-- The `for company in data` loop accumulating per-sector total and affected
COGS (lines 450-459). -/
def sectorCogsFold (data : List Company) : List (String × ℚ × ℚ) :=
  data.foldl (fun acc c =>
    upsertCogs c.sector c.cogs_usd (c.cogs_usd * c.affected_cogs_pct) acc) []

/-- One entry of `sector_exposure_ranking` (lines 461-467), guarding the
zero-denominator case. -/
def rankEntry (kv : String × ℚ × ℚ) : String × ℚ :=
  (kv.1, if kv.2.1 > 0 then kv.2.2 / kv.2.1 else 0)

/-- Full response payload of `get_exposure_summary`. -/
structure ExposureSummary where
  overview : PortfolioOverview
  breakdown : ExposureBreakdown
  top_exposed : List Company
  sector_ranking : List (String × ℚ)
deriving DecidableEq

/-- Core of the `get_exposure_summary` tool (lines 424-501): whole-portfolio
totals, exposure-level counts, sector ranking and top-10 list.  The top-10
entries are modelled as the full records (the code projects a fixed subset of
fields, which adds no information). -/
def get_exposure_summary (data : List Company) : ExposureSummary :=
  let total_companies := data.length
  let total_investment := data.foldl (fun a c => a + c.investment_usd) 0
  let total_revenue := data.foldl (fun a c => a + c.revenue_usd) 0
  let total_cogs := data.foldl (fun a c => a + c.cogs_usd) 0
  let importers := data.filter (fun c => c.imports_into_us)
  let total_affected_cogs :=
    data.foldl (fun a c => a + c.cogs_usd * c.affected_cogs_pct) 0
  let breakdown : ExposureBreakdown :=
    ⟨data.countP (fun c => lowerStr c.exposure_level == "high"),
     data.countP (fun c => lowerStr c.exposure_level == "medium"),
     data.countP (fun c => lowerStr c.exposure_level == "low"),
     data.countP (fun c => lowerStr c.exposure_level == "none")⟩
  let ranking := sortByLe (fun x y => decide (y.2 ≤ x.2))
    ((sectorCogsFold data).map rankEntry)
  let top_exposed := (sortByLe
    (fun x y => decide (y.affected_cogs_pct ≤ x.affected_cogs_pct)) data).take 10
  ⟨⟨total_companies, total_investment, total_revenue, total_cogs,
    total_affected_cogs,
    if total_cogs > 0 then total_affected_cogs / total_cogs else 0,
    importers.length⟩,
   breakdown, top_exposed, ranking⟩

/-- A loaded CSV cell after coercion: left as text, coerced to a number, or
coerced to a boolean. -/
inductive CellVal where
  | str (s : String)
  | num (q : ℚ)
  | bool (b : Bool)
deriving DecidableEq

/-- Fold a digit run into a natural number. -/
def digitsToNat (l : List Char) : Nat :=
  l.foldl (fun a c => a * 10 + (c.toNat - 48)) 0

/-- Model of Python `float()` restricted to the plain decimal literals used
by the dataset: optional sign, digits, optional fractional part (exponents,
`inf` and `nan` spellings are out of scope and fail to parse here).  Returns
`none` exactly when the string is not such a literal — in particular on the
empty string. -/
def pyFloat? (s : String) : Option ℚ :=
  let chars := s.data
  let sign : ℚ := if chars.head? = some '-' then -1 else 1
  let rest := if chars.head? = some '-' ∨ chars.head? = some '+'
    then chars.tail else chars
  let intPart := rest.takeWhile Char.isDigit
  let rest2 := rest.dropWhile Char.isDigit
  match rest2 with
  | [] =>
    if intPart.isEmpty then none else some (sign * digitsToNat intPart)
  | dot :: frac =>
    if dot = '.' ∧ frac.all Char.isDigit ∧ (intPart ≠ [] ∨ frac ≠ []) then
      some (sign * ((digitsToNat intPart : ℚ) +
        (digitsToNat frac : ℚ) / (10 ^ frac.length)))
    else none

/-- The declared numeric columns (lines 57-60). -/
def numeric_fields : List String :=
  ["investment_usd", "revenue_usd", "cogs_usd",
   "gross_margin_pct", "fiscal_year", "affected_cogs_pct", "confidence"]

/-- Per-cell coercion of `load_portfolio_data` (lines 61-70): a numeric field
is converted only when its raw value is truthy (non-empty); a failed parse
becomes `0.0`; an empty value is left as the (string) value it was.
`imports_into_us` is compared case-insensitively against `TRUE`. -/
def loadCell (field v : String) : CellVal :=
  if field ∈ numeric_fields then
    if v ≠ "" then
      match pyFloat? v with
      | some q => .num q
      | none => .num 0
    else .str v
  else if field = "imports_into_us" then .bool (upperStr v == "TRUE")
  else .str v

/-- Coercion of one CSV row (keyed cells), the body of the reader loop. -/
def load_row (row : List (String × String)) : List (String × CellVal) :=
  row.map (fun kv => (kv.1, loadCell kv.1 kv.2))

/-- `load_portfolio_data` (lines 41-76) in state-passing form: the state is
the module-global `_portfolio_cache`; `source` is the parsed CSV, `none`
when the file is absent.  A non-empty cache is returned as-is; otherwise the
source is loaded and (when the file exists) cached. -/
def load_portfolio_data (source : Option (List Company))
    (cache : List Company) : List Company × List Company :=
  if cache ≠ [] then (cache, cache)
  else
    match source with
    | none => ([], cache)
    | some rows => (rows, rows)

/-- The `query_sp500_portfolio` tool including its cache interaction. -/
def query_tool (q : Query) (source : Option (List Company))
    (cache : List Company) : SearchResult × List Company :=
  let (data, cache2) := load_portfolio_data source cache
  (query_sp500_portfolio q data, cache2)

/-- The `get_company_details` tool including its cache interaction. -/
def details_tool (ticker company_name : String) (source : Option (List Company))
    (cache : List Company) : DetailsResult × List Company :=
  let (data, cache2) := load_portfolio_data source cache
  (get_company_details ticker company_name data, cache2)

/-- The `get_sector_analysis` tool including its cache interaction. -/
def sector_tool (sector : String) (source : Option (List Company))
    (cache : List Company) : SectorAnalysisResult × List Company :=
  let (data, cache2) := load_portfolio_data source cache
  (get_sector_analysis sector data, cache2)

/-- The `get_exposure_summary` tool including its cache interaction. -/
def summary_tool (source : Option (List Company))
    (cache : List Company) : ExposureSummary × List Company :=
  let (data, cache2) := load_portfolio_data source cache
  (get_exposure_summary data, cache2)

/-- The conjunction-of-supplied-criteria predicate, written from the spec's
description of the Predicate Filter (one conjunct per criterion;
empty-string / zero-valued criteria impose no constraint; an
`imports_filter` token other than yes/no constrains nothing). -/
def matchesCriteria (q : Query) (c : Company) : Bool :=
  (decide (q.sector = "") || (lowerStr c.sector == lowerStr q.sector)) &&
  (decide (q.industry = "") || (lowerStr c.industry == lowerStr q.industry)) &&
  (decide (q.exposure_level = "") ||
    (lowerStr c.exposure_level == lowerStr q.exposure_level)) &&
  (decide (q.imports_filter = "") ||
    (if lowerStr q.imports_filter = "yes" then c.imports_into_us
     else if lowerStr q.imports_filter = "no" then !c.imports_into_us
     else true)) &&
  (!(decide (q.min_revenue > 0)) || decide (q.min_revenue ≤ c.revenue_usd)) &&
  (!(decide (q.max_revenue > 0)) || decide (c.revenue_usd ≤ q.max_revenue)) &&
  (!(decide (q.min_affected_cogs_pct > 0)) ||
    decide (q.min_affected_cogs_pct ≤ c.affected_cogs_pct)) &&
  (decide (q.company_name = "") ||
    containsSub (lowerStr c.company_name) (lowerStr q.company_name)) &&
  (decide (q.ticker = "") || (upperStr c.ticker == upperStr q.ticker))

theorem length_insertLe {α : Type} (le : α → α → Bool) (a : α) (l : List α) :
    (insertLe le a l).length = l.length + 1 := by
  induction l with
  | nil => rfl
  | cons b t ih =>
    unfold insertLe
    split
    · simp
    · simp [ih]

theorem length_sortByLe {α : Type} (le : α → α → Bool) (l : List α) :
    (sortByLe le l).length = l.length := by
  induction l with
  | nil => rfl
  | cons a t ih => simp [sortByLe, length_insertLe, ih]

theorem mem_insertLe {α : Type} (le : α → α → Bool) (a x : α) (l : List α) :
    x ∈ insertLe le a l ↔ x = a ∨ x ∈ l := by
  induction l with
  | nil => simp [insertLe]
  | cons b t ih =>
    unfold insertLe
    split
    · simp
    · simp only [List.mem_cons, ih]
      tauto

theorem mem_sortByLe {α : Type} (le : α → α → Bool) (x : α) (l : List α) :
    x ∈ sortByLe le l ↔ x ∈ l := by
  induction l with
  | nil => simp [sortByLe]
  | cons a t ih => simp [sortByLe, mem_insertLe, ih]

/-- C4: `getDetails` with both identifiers empty returns the validation-error
status with its explanatory message, independently of the dataset (so no
lookup is performed), and — being a total function of the embedding — never
raises. -/
theorem details_empty_identifiers_validation_error (data : List Company) :
    get_company_details "" "" data =
      .validationError "Must provide either ticker or company_name" := by
  simp [get_company_details]

/-- C3: whenever `getDetails` succeeds, the four calculated metrics are
exactly: affected COGS = cogs × affected pct, impact = affected COGS × 0.25,
revenue/COGS ratio (0 when COGS is 0), and risk score = affected pct for
importers, else 0. -/
theorem details_metrics_exact (t n : String) (data : List Company)
    (c : Company) (a p r e : ℚ)
    (h : get_company_details t n data = .success c a p r e) :
    a = c.cogs_usd * c.affected_cogs_pct ∧
    p = a * 0.25 ∧
    (c.cogs_usd > 0 → r = c.revenue_usd / c.cogs_usd) ∧
    (c.cogs_usd = 0 → r = 0) ∧
    e = (if c.imports_into_us then c.affected_cogs_pct else 0) := by
  unfold get_company_details at h
  split at h
  · exact absurd h (by simp)
  · rcases hF : lookupCompany t n data with _ | c'
    · rw [hF] at h
      simp at h
    · rw [hF] at h
      dsimp only at h
      obtain ⟨hc, ha, hp, hr, he⟩ := DetailsResult.success.inj h
      subst hc
      refine ⟨ha.symm, by rw [← hp, ← ha], ?_, ?_, ?_⟩
      · intro hpos
        rw [← hr]
        simp [hpos]
      · intro hz
        rw [← hr]
        simp [hz]
      · rw [← he]
        by_cases himp : c'.imports_into_us = true <;> simp [himp]

/-- Sample record in the style of the dataset (integer-valued rationals keep
concrete evaluation cheap). -/
def apexCo : Company :=
  ⟨"APEX0", "ApexTech", "Information Technology", "Software", "high", true,
   100, 500, 200, 1, 2024, 1⟩

/-- Sample record with all-zero financials and an unrecognized exposure
level. -/
def zeroCo : Company :=
  ⟨"ZERO0", "ZeroCogs Corp", "Utilities", "Power", "weird", false,
   0, 0, 0, 0, 2024, 0⟩

/-- Sample record of a non-importer with zero COGS in a second sector. -/
def plainCo : Company :=
  ⟨"PLN1", "Plain Goods", "Consumer Staples", "Retail", "low", false,
   7, 3, 0, 1, 2023, 1⟩

/-- Witness for the C3 theorem at `ticker="apex0"` over `[apexCo]`. -/
theorem details_metrics_exact_witness :
    (200 : ℚ) = apexCo.cogs_usd * apexCo.affected_cogs_pct ∧
    (50 : ℚ) = 200 * 0.25 ∧
    (apexCo.cogs_usd > 0 → (5/2 : ℚ) = apexCo.revenue_usd / apexCo.cogs_usd) ∧
    (apexCo.cogs_usd = 0 → (5/2 : ℚ) = 0) ∧
    (1 : ℚ) = (if apexCo.imports_into_us then apexCo.affected_cogs_pct else 0) :=
  details_metrics_exact "apex0" "" [apexCo] apexCo 200 50 (5/2) 1 (by
    have hl : lookupCompany "apex0" "" [apexCo] = some apexCo := by decide
    rw [get_company_details, if_neg (by decide), hl]
    norm_num [apexCo])

/-- C9: a non-empty `imports_filter` whose lowercase form is neither `yes`
nor `no` imposes no import-status constraint: the search result is the one of
the identical query with `imports_filter` empty. -/
theorem search_unknown_imports_filter_noop (q : Query) (data : List Company)
    (h1 : q.imports_filter ≠ "")
    (h2 : lowerStr q.imports_filter ≠ "yes")
    (h3 : lowerStr q.imports_filter ≠ "no") :
    query_sp500_portfolio q data =
      query_sp500_portfolio { q with imports_filter := "" } data := by
  unfold query_sp500_portfolio applyFilters
  simp [h1, h2, h3]

/-- Query with every criterion unset except an unrecognized imports filter. -/
def qMaybeImports : Query :=
  ⟨"", "", "", "maybe", 0, 0, 0, "", "", 20, "", true⟩

/-- Witness for the C9 theorem at `imports_filter="maybe"`. -/
theorem search_unknown_imports_filter_noop_witness :
    query_sp500_portfolio qMaybeImports [apexCo, zeroCo] =
      query_sp500_portfolio { qMaybeImports with imports_filter := "" }
        [apexCo, zeroCo] :=
  search_unknown_imports_filter_noop qMaybeImports [apexCo, zeroCo]
    (by decide) (by decide) (by decide)

theorem pyTake_length {α : Type} (n : Int) (l : List α) :
    (pyTake n l).length =
      if 0 ≤ n then min n.toNat l.length else l.length - n.natAbs := by
  unfold pyTake
  split <;> simp [List.length_take]

/-- C1 (amended): `total_matches` is always the pre-truncation filtered
count for every combination of criteria and sort settings; a limit of 0
yields an empty `companies` list; a negative limit instead drops the last
`|limit|` elements (Python slicing), so the returned count is the filtered
count minus `|limit|` (truncated at 0). -/
theorem search_total_matches_and_limit (q : Query) (data : List Company) :
    (query_sp500_portfolio q data).total_matches = (applyFilters q data).length ∧
    (q.limit = 0 → (query_sp500_portfolio q data).returned_count = 0) ∧
    (q.limit < 0 → (query_sp500_portfolio q data).returned_count =
      (applyFilters q data).length - q.limit.natAbs) := by
  unfold query_sp500_portfolio
  dsimp only
  refine ⟨rfl, ?_, ?_⟩
  · intro h0
    simp [h0, pyTake]
  · intro hneg
    have hsorted :
        (if q.sort_by ≠ "" ∧ q.sort_by ∈ sortFields then
            pySort q.sort_by q.sort_desc (applyFilters q data)
          else applyFilters q data).length = (applyFilters q data).length := by
      split
      · simp [pySort, length_sortByLe]
      · rfl
    rw [pyTake_length, hsorted, if_neg (by omega)]

/-- Query with every criterion unset and a negative limit. -/
def qLimitNeg : Query := ⟨"", "", "", "", 0, 0, 0, "", "", -1, "", true⟩

/-- Query with every criterion unset and limit 0. -/
def qLimitZero : Query := ⟨"", "", "", "", 0, 0, 0, "", "", 0, "", true⟩

/-- Counterexample to C1 as stated: with `limit = -1 ≤ 0` over a two-record
dataset, the returned list is NOT empty — Python slicing `results[:-1]`
returns all but the last record, so `returned_count = 1`. -/
theorem search_limit_nonpositive_counterexample :
    qLimitNeg.limit ≤ 0 ∧
    (query_sp500_portfolio qLimitNeg [apexCo, zeroCo]).returned_count = 1 := by
  constructor
  · decide
  · simp [query_sp500_portfolio, applyFilters, qLimitNeg, pyTake, sortFields]

/-- Witness for the amended C1 theorem at limit 0 over `[apexCo]`. -/
theorem search_total_matches_and_limit_witness :
    (query_sp500_portfolio qLimitZero [apexCo]).total_matches =
      (applyFilters qLimitZero [apexCo]).length ∧
    (query_sp500_portfolio qLimitZero [apexCo]).returned_count = 0 :=
  ⟨(search_total_matches_and_limit qLimitZero [apexCo]).1,
   (search_total_matches_and_limit qLimitZero [apexCo]).2.1 rfl⟩

theorem filter_if_skip (b : Prop) [Decidable b] (p : Company → Bool)
    (l : List Company) :
    (if b then l else l.filter p) = l.filter (fun c => decide b || p c) := by
  by_cases h : b <;> simp [h]

theorem filter_if_apply (b : Prop) [Decidable b] (p : Company → Bool)
    (l : List Company) :
    (if b then l.filter p else l) = l.filter (fun c => !(decide b) || p c) := by
  by_cases h : b <;> simp [h]

theorem filter_imports_step (f : String) (l : List Company) :
    (if f = "" then l else
      if lowerStr f = "yes" then l.filter (fun c => c.imports_into_us)
      else if lowerStr f = "no" then l.filter (fun c => !c.imports_into_us)
      else l) =
    l.filter (fun c => decide (f = "") ||
      (if lowerStr f = "yes" then c.imports_into_us
       else if lowerStr f = "no" then !c.imports_into_us
       else true)) := by
  by_cases h1 : f = ""
  · simp [h1]
  · by_cases h2 : lowerStr f = "yes"
    · simp [h1, h2]
    · by_cases h3 : lowerStr f = "no" <;> simp [h1, h2, h3]

/-- C5: the filtering step equals a single `List.filter` with the
conjunction-of-supplied-criteria predicate (so it is the order-preserving
subsequence of the cached records satisfying all supplied criteria, and an
empty-string or zero criterion imposes no constraint). -/
theorem applyFilters_eq_filter_conjunction (q : Query) (data : List Company) :
    applyFilters q data = data.filter (matchesCriteria q) ∧
    (applyFilters q data).Sublist data := by
  have heq : applyFilters q data = data.filter (matchesCriteria q) := by
    unfold applyFilters
    dsimp only
    rw [filter_if_skip (q.ticker = "")]
    rw [filter_if_skip (q.company_name = "")]
    rw [filter_if_apply (q.min_affected_cogs_pct > 0)]
    rw [filter_if_apply (q.max_revenue > 0)]
    rw [filter_if_apply (q.min_revenue > 0)]
    rw [filter_imports_step q.imports_filter]
    rw [filter_if_skip (q.exposure_level = "")]
    rw [filter_if_skip (q.industry = "")]
    rw [filter_if_skip (q.sector = "")]
    simp only [List.filter_filter]
    refine List.filter_congr ?_
    intro c _
    simp only [matchesCriteria]
    simp [Bool.and_assoc, Bool.and_comm, Bool.and_left_comm]
  exact ⟨heq, heq ▸ List.filter_sublist data⟩

theorem find?_first {α : Type} (p : α → Bool) (l1 l2 : List α) (c : α)
    (h1 : ∀ x ∈ l1, p x = false) (hc : p c = true) :
    List.find? p (l1 ++ c :: l2) = some c := by
  induction l1 with
  | nil => simp [List.find?_cons, hc]
  | cons a t ih =>
    have ha : p a = false := h1 a (by simp)
    simp only [List.cons_append, List.find?_cons, ha]
    exact ih (fun x hx => h1 x (by simp [hx]))

/-- C7: lookup order of `getDetails`.  (1) With a non-empty ticker, the first
record in dataset order whose ticker matches case-insensitively is returned.
(2) With the ticker empty or unmatched and a non-empty name, the first record
whose name contains the query case-insensitively is returned.  (3) When
neither supplied search matches, the result is the not-found status with its
descriptive message (and no exception, the function being total). -/
theorem details_lookup_order (t n : String) (data : List Company) :
    (∀ l1 c l2, t ≠ "" → data = l1 ++ c :: l2 →
        (∀ x ∈ l1, tickerMatch t x = false) → tickerMatch t c = true →
        ∃ a p r e, get_company_details t n data = .success c a p r e) ∧
    (∀ l1 c l2, (t = "" ∨ ∀ x ∈ data, tickerMatch t x = false) → n ≠ "" →
        data = l1 ++ c :: l2 →
        (∀ x ∈ l1, nameMatch n x = false) → nameMatch n c = true →
        ∃ a p r e, get_company_details t n data = .success c a p r e) ∧
    ((t ≠ "" ∨ n ≠ "") →
        (t ≠ "" → ∀ x ∈ data, tickerMatch t x = false) →
        (n ≠ "" → ∀ x ∈ data, nameMatch n x = false) →
        get_company_details t n data =
          .notFound ("No company found matching ticker=" ++ t ++
            " or name=" ++ n)) := by
  refine ⟨?_, ?_, ?_⟩
  · intro l1 c l2 ht hdata h1 hc
    subst hdata
    have hlook : lookupCompany t n (l1 ++ c :: l2) = some c := by
      unfold lookupCompany
      simp only [ht, ne_eq, not_false_iff, if_true, find?_first _ _ _ _ h1 hc]
    refine ⟨c.cogs_usd * c.affected_cogs_pct,
      c.cogs_usd * c.affected_cogs_pct * 0.25,
      (if c.cogs_usd > 0 then c.revenue_usd / c.cogs_usd else 0),
      (c.affected_cogs_pct * (if c.imports_into_us then 1 else 0)), ?_⟩
    unfold get_company_details
    rw [if_neg (by tauto), hlook]
  · intro l1 c l2 htick hn hdata h1 hc
    have hlook : lookupCompany t n data = some c := by
      unfold lookupCompany
      have hby : (if t ≠ "" then data.find? (tickerMatch t) else none) = none := by
        rcases htick with ht | hall
        · simp [ht]
        · split
          · exact List.find?_eq_none.mpr (fun x hx => by simp [hall x hx])
          · rfl
      rw [hby]
      subst hdata
      simp only [hn, ne_eq, not_false_iff, if_true, find?_first _ _ _ _ h1 hc]
    refine ⟨c.cogs_usd * c.affected_cogs_pct,
      c.cogs_usd * c.affected_cogs_pct * 0.25,
      (if c.cogs_usd > 0 then c.revenue_usd / c.cogs_usd else 0),
      (c.affected_cogs_pct * (if c.imports_into_us then 1 else 0)), ?_⟩
    unfold get_company_details
    rw [if_neg (by tauto), hlook]
  · intro hsome htick hname
    have hlook : lookupCompany t n data = none := by
      unfold lookupCompany
      have hby : (if t ≠ "" then data.find? (tickerMatch t) else none) = none := by
        split
        · next ht =>
          exact List.find?_eq_none.mpr (fun x hx => by simp [htick ht x hx])
        · rfl
      rw [hby]
      split
      · next hn =>
        exact List.find?_eq_none.mpr (fun x hx => by simp [hname hn x hx])
      · rfl
    unfold get_company_details
    rw [if_neg (by tauto), hlook]

/-- Witness for the C7 theorem: ticker hit in second position, name-fallback
hit in second position, and a miss on both searches. -/
theorem details_lookup_order_witness :
    (∃ a p r e, get_company_details "zero0" "" [apexCo, zeroCo] =
      .success zeroCo a p r e) ∧
    (∃ a p r e, get_company_details "" "plain" [apexCo, plainCo] =
      .success plainCo a p r e) ∧
    get_company_details "q" "q" [apexCo] =
      .notFound ("No company found matching ticker=" ++ "q" ++
        " or name=" ++ "q") :=
  ⟨(details_lookup_order "zero0" "" [apexCo, zeroCo]).1 [apexCo] zeroCo []
      (by decide) rfl (by decide) (by decide),
   (details_lookup_order "" "plain" [apexCo, plainCo]).2.1 [apexCo] plainCo []
      (Or.inl rfl) (by decide) rfl (by decide) (by decide),
   (details_lookup_order "q" "q" [apexCo]).2.2 (Or.inl (by decide))
      (fun _ => by decide) (fun _ => by decide)⟩

/-- C6: every ratio of the sector aggregation and of the portfolio summary
returns 0 when its denominator is 0: a sector summary with zero total COGS
has `average_exposure_pct = 0`; the overview's `overall_exposure_pct` is 0
when total COGS is 0; a sector-ranking entry with zero total COGS gets
exposure 0.  (All aggregations are total functions over `ℚ`, so no division
error or non-finite value can arise in the model.) -/
theorem aggregation_zero_denominator_safe (data : List Company) :
    (∀ s ∈ buildSectorSummaries data, s.total_cogs_usd = 0 →
      s.average_exposure_pct = 0) ∧
    ((get_exposure_summary data).overview.total_cogs_usd = 0 →
      (get_exposure_summary data).overview.overall_exposure_pct = 0) ∧
    (∀ kv ∈ sectorCogsFold data, kv.2.1 = 0 → rankEntry kv = (kv.1, 0)) := by
  refine ⟨?_, ?_, ?_⟩
  · intro s hs hz
    unfold buildSectorSummaries at hs
    rw [mem_sortByLe] at hs
    obtain ⟨kv, hkv, hmk⟩ := List.mem_map.mp hs
    subst hmk
    unfold mkSummary at hz ⊢
    dsimp only at hz ⊢
    simp [hz]
  · intro hz
    unfold get_exposure_summary at hz ⊢
    dsimp only at hz ⊢
    simp [hz]
  · intro kv hkv hz
    unfold rankEntry
    simp [hz]

theorem level_buckets_exclusive (s : String) :
    (if (s == "high") = true then 1 else 0) +
    (if (s == "medium") = true then 1 else 0) +
    (if (s == "low") = true then 1 else 0) +
    (if (s == "none") = true then 1 else 0) ≤ 1 := by
  by_cases h1 : s = "high" <;> by_cases h2 : s = "medium" <;>
    by_cases h3 : s = "low" <;> by_cases h4 : s = "none" <;>
    simp_all

theorem countP_levels_le_length (data : List Company) :
    data.countP (fun c => lowerStr c.exposure_level == "high") +
    data.countP (fun c => lowerStr c.exposure_level == "medium") +
    data.countP (fun c => lowerStr c.exposure_level == "low") +
    data.countP (fun c => lowerStr c.exposure_level == "none") ≤
      data.length := by
  induction data with
  | nil => simp
  | cons a t ih =>
    simp only [List.countP_cons, List.length_cons]
    have h := level_buckets_exclusive (lowerStr a.exposure_level)
    omega

/-- C8: the four exposure-level bucket counts of the portfolio summary sum to
at most the total company count (a record with an unrecognized level lands in
no bucket), while `total_companies` and the financial totals range over every
record of the dataset. -/
theorem exposure_breakdown_counts_bounded (data : List Company) :
    (get_exposure_summary data).breakdown.high +
      (get_exposure_summary data).breakdown.medium +
      (get_exposure_summary data).breakdown.low +
      (get_exposure_summary data).breakdown.none_count ≤
      (get_exposure_summary data).overview.total_companies ∧
    (get_exposure_summary data).overview.total_companies = data.length ∧
    (get_exposure_summary data).overview.total_investment_usd =
      data.foldl (fun a c => a + c.investment_usd) 0 := by
  refine ⟨?_, rfl, rfl⟩
  unfold get_exposure_summary
  dsimp only
  exact countP_levels_le_length data

/-- The sector summary produced for the singleton dataset `[zeroCo]`. -/
def zeroSummary : SectorSummary :=
  ⟨"Utilities", 1, 0, 0, 0, 0, 0, 0, [zeroCo]⟩

/-- Witness for the C6 theorem over the singleton dataset `[zeroCo]`, whose
only sector has zero total COGS. -/
theorem aggregation_zero_denominator_safe_witness :
    zeroSummary.average_exposure_pct = 0 ∧
    (get_exposure_summary [zeroCo]).overview.overall_exposure_pct = 0 ∧
    rankEntry ("Utilities", 0, 0) = ("Utilities", 0) :=
  ⟨(aggregation_zero_denominator_safe [zeroCo]).1 zeroSummary
      (by norm_num [buildSectorSummaries, groupBySector, upsert, accAdd,
        emptyAcc, mkSummary, sortByLe, insertLe, zeroCo, zeroSummary]) rfl,
   (aggregation_zero_denominator_safe [zeroCo]).2.1
      (by norm_num [get_exposure_summary, zeroCo]),
   (aggregation_zero_denominator_safe [zeroCo]).2.2 ("Utilities", 0, 0)
      (by norm_num [sectorCogsFold, upsertCogs, zeroCo]) rfl⟩

/-- C10 (amended): once the cache is non-empty, none of the four operations
changes it — length, order and every record are identical before and after
the call (filtering/sorting build fresh lists in the model exactly as in the
code).  The one state change in the system's life is the first load
populating the empty cache (see the counterexample). -/
theorem tools_preserve_nonempty_cache (source : Option (List Company))
    (cache : List Company) (h : cache ≠ []) (q : Query) (t n sec : String) :
    (query_tool q source cache).2 = cache ∧
    (details_tool t n source cache).2 = cache ∧
    (sector_tool sec source cache).2 = cache ∧
    (summary_tool source cache).2 = cache := by
  unfold query_tool details_tool sector_tool summary_tool load_portfolio_data
  simp [h]

/-- Counterexample to C10 as stated: the very first call against an empty
cache populates it (the lazy load), so the cached sequence is not identical
before and after that call. -/
theorem tools_first_load_populates_cache_counterexample :
    (query_tool qLimitZero (some [apexCo]) []).2 = [apexCo] ∧
    [apexCo] ≠ ([] : List Company) := by
  constructor
  · simp [query_tool, load_portfolio_data]
  · exact List.cons_ne_nil _ _

/-- Witness for the amended C10 theorem at a populated cache. -/
theorem tools_preserve_nonempty_cache_witness :
    (query_tool qLimitZero (some []) [apexCo]).2 = [apexCo] ∧
    (summary_tool (some []) [apexCo]).2 = [apexCo] :=
  ⟨(tools_preserve_nonempty_cache (some []) [apexCo]
      (List.cons_ne_nil _ _) qLimitZero "" "" "").1,
   (tools_preserve_nonempty_cache (some []) [apexCo]
      (List.cons_ne_nil _ _) qLimitZero "" "" "").2.2.2⟩

/-- C2 (amended): for a declared numeric field, every non-empty raw value is
coerced to a number after load — a failed decimal parse degrades to `0.0`
without aborting anything — and the loader is total: every row loads with
every column present. -/
theorem loader_numeric_coercion (row : List (String × String)) (k v : String)
    (hk : k ∈ numeric_fields) (hv : v ≠ "") :
    (∃ q : ℚ, loadCell k v = CellVal.num q ∧ (pyFloat? v = none → q = 0)) ∧
    (load_row row).length = row.length := by
  constructor
  · unfold loadCell
    rw [if_pos hk, if_pos hv]
    cases hp : pyFloat? v with
    | none => exact ⟨0, rfl, fun _ => rfl⟩
    | some q => exact ⟨q, rfl, by simp [hp]⟩
  · simp [load_row]

/-- Counterexample to C2 as stated: an empty raw value in a numeric column is
falsy in Python, so the coercion loop skips it — after load the field still
holds the empty string, not a numeric value (and in particular a value that
failed to parse was not replaced by 0.0). -/
theorem loader_empty_value_counterexample :
    load_row [("revenue_usd", "")] = [("revenue_usd", CellVal.str "")] ∧
    ∀ q : ℚ, CellVal.str "" ≠ CellVal.num q := by
  constructor
  · rfl
  · intro q h
    exact CellVal.noConfusion h

/-- Witness for the amended C2 theorem at the well-formed value `12.5`. -/
theorem loader_numeric_coercion_witness :
    (∃ q : ℚ, loadCell "revenue_usd" "12.5" = CellVal.num q ∧
      (pyFloat? "12.5" = none → q = 0)) ∧
    (load_row [("revenue_usd", "12.5")]).length =
      ([("revenue_usd", "12.5")] : List (String × String)).length :=
  loader_numeric_coercion [("revenue_usd", "12.5")] "revenue_usd" "12.5"
    (by decide) (by decide)
